import Mathlib

/-!
# Verification of the financial-chat-analyzer recommendation engine

A shallow embedding of the analysis endpoint of the repository
(`src/unnamed/part_002`: `handler`, `analyzeAsset`, `getTechnicalAnalysis`,
`getFundamentalAnalysis`, `getNewsAnalysis`, `getSentimentFromNews`,
`generateRecommendation`, `generateRecommendationMessage`) together with the
`GLOBAL_QUOTE` variant of `getTechnicalAnalysis` from `src/unnamed/part_000`.

Modelling conventions:
* JS numbers are exact rationals (`ℚ`); the display-only `toFixed(2)` string
  formatting is not modelled (the derived quantities are kept exact).
* A field holding the string sentinel `'N/A'` is `Option.none`.
* Date keys of the `'Time Series (Daily)'` object are naturals; the source
  sorts the `YYYY-MM-DD` date strings lexicographically, which on fixed-width
  date strings is the numeric order.
* Fallible steps (network failure, provider error payload, missing data)
  become explicit constructors of a `FetchOutcome` type; a thrown-and-caught
  exception becomes the sentinel value the `catch` branch returns.
-/

namespace FinChat

/-- A technical signal as consumed by `generateRecommendation` when data is
available (`technical.price !== 'N/A'`): the `price`, `changePercent` and
`indicators.sma20` fields after `parseFloat`.  The whole-object sentinel
(`price: 'N/A'`, part_002 lines 121-127) is `none` at the use sites. -/
structure TechData where
  price : ℚ
  changePercent : ℚ
  sma20 : ℚ
  deriving Repr, DecidableEq

/-- The fundamental signal fields used by `generateRecommendation`
(part_002 lines 373, 391): each is independently `'N/A'` (= `none`) or a
parsed number. -/
structure FundData where
  peRatio : Option ℚ
  dividendYield : Option ℚ
  deriving Repr, DecidableEq

/-- The sentiment signal as consumed by `generateRecommendation`: only the
numeric `score` field is read (part_002 lines 400-407).  Its producer
`getSentimentFromNews` always supplies a numeric score (0 when no news). -/
structure SentData where
  score : ℚ
  deriving Repr, DecidableEq

/-- The record returned by `generateRecommendation` (part_002 lines 444-453). -/
structure Recommendation where
  recommendation : String
  action : String
  confidence : String
  score : Int
  riskLevel : String
  reasons : List String
  riskFactors : List String
  message : String
  deriving Repr, DecidableEq

/-- Technical-analysis scoring of `generateRecommendation`
(part_002 lines 339-370): the momentum band on `changePercent` followed by
the trend comparison of `price` against `1.02 * sma20` / `0.98 * sma20`.
Returns the score delta and the `reasons` / `riskFactors` strings pushed, in
push order.  The guard `technical.price !== 'N/A'` is the `none` case. -/
def techScore : Option TechData → Int × List String × List String
  | none => (0, [], [])
  | some t =>
    let m : Int × List String × List String :=
      if t.changePercent > 3 then (2, ["Strong upward momentum (+3%)"], [])
      else if t.changePercent > 0 then (1, ["Positive price movement"], [])
      else if t.changePercent < -3 then
        (-2, ["Significant price decline (-3%)"], ["Recent sharp decline"])
      else if t.changePercent < 0 then (-1, ["Negative price movement"], [])
      else (0, [], [])
    let tr : Int × List String × List String :=
      if t.price > t.sma20 * 1.02 then (1, ["Price above 20-day average"], [])
      else if t.price < t.sma20 * 0.98 then
        (-1, ["Price below 20-day average"], ["Below short-term trend"])
      else (0, [], [])
    (m.1 + tr.1, m.2.1 ++ tr.2.1, m.2.2 ++ tr.2.2)

/-- P/E scoring of `generateRecommendation` (part_002 lines 372-388); the
guard `fundamental.peRatio !== 'N/A'` is the `none` case. -/
def peScore : Option ℚ → Int × List String × List String
  | none => (0, [], [])
  | some pe =>
    if pe > 0 then
      if pe < 15 then (2, ["Attractive P/E ratio (value play)"], [])
      else if pe < 25 then (1, ["Reasonable P/E ratio"], [])
      else if pe > 40 then (-1, ["High P/E ratio (expensive)"], ["High valuation risk"])
      else (0, [], [])
    else (0, [], [])

/-- Dividend-yield scoring of `generateRecommendation` (part_002 lines
390-397); this branch never pushes a risk factor. -/
def divScore : Option ℚ → Int × List String
  | none => (0, [])
  | some dy => if dy > 3 then (1, ["Good dividend yield"]) else (0, [])

/-- Sentiment scoring of `generateRecommendation` (part_002 lines 399-407). -/
def sentScore (s : SentData) : Int × List String × List String :=
  if s.score > 0.5 then (1, ["Positive market sentiment"], [])
  else if s.score < -0.5 then
    (-1, ["Negative market sentiment"], ["Poor news sentiment"])
  else (0, [], [])

/-- The score-to-action cascade of `generateRecommendation` (part_002 lines
410-432): `(recommendation, action, confidence)`. -/
def actionOf (score : Int) : String × String × String :=
  if score ≥ 3 then ("BUY", "🟢 Strong Buy", "High")
  else if score ≥ 1 then ("BUY", "🟢 Buy", "Medium")
  else if score ≥ -1 then ("HOLD", "🟡 Hold", "Medium")
  else if score ≥ -3 then ("SELL", "🔴 Sell", "Medium")
  else ("SELL", "🔴 Strong Sell", "High")

/-- The risk assessment of `generateRecommendation` (part_002 lines 434-442),
a function of `riskFactors.length` before the `slice(0, 3)` truncation. -/
def assessRisk (n : Nat) : String :=
  if n ≥ 3 then "High" else if n ≥ 1 then "Medium" else "Low"

/-- `generateRecommendationMessage` (part_002 lines 456-481). -/
def generateRecommendationMessage (recommendation confidence riskLevel : String) : String :=
  if recommendation == "BUY" then
    (confidence ++ " confidence buy recommendation. ") ++
      (if riskLevel == "Low" then "Low risk investment with good upside potential."
       else if riskLevel == "Medium" then "Moderate risk - consider position sizing carefully."
       else "Higher risk - suitable for aggressive investors only.")
  else if recommendation == "HOLD" then
    "Hold current position. " ++ "Mixed signals suggest waiting for clearer direction."
  else
    (confidence ++ " confidence sell recommendation. ") ++
      (if riskLevel == "High" then "High risk of further decline - consider exit strategy."
       else "Consider taking profits or reducing exposure.")

/-- `generateRecommendation` (part_002 lines 334-454).  The source mutates
`score`, `reasons` and `riskFactors` through the technical, P/E, dividend and
sentiment blocks in that order; here each block's contribution is computed by
the corresponding helper and the accumulators are the concatenations in the
same push order. -/
def generateRecommendation (technical : Option TechData) (fundamental : FundData)
    (sentiment : SentData) : Recommendation :=
  let t := techScore technical
  let p := peScore fundamental.peRatio
  let d := divScore fundamental.dividendYield
  let s := sentScore sentiment
  let score := t.1 + p.1 + d.1 + s.1
  let reasons := t.2.1 ++ p.2.1 ++ d.2 ++ s.2.1
  let riskFactors := t.2.2 ++ p.2.2 ++ s.2.2
  let rac := actionOf score
  let riskLevel := assessRisk riskFactors.length
  { recommendation := rac.1
    action := rac.2.1
    confidence := rac.2.2
    score := score
    riskLevel := riskLevel
    reasons := reasons.take 4
    riskFactors := riskFactors.take 3
    message := generateRecommendationMessage rac.1 rac.2.2 riskLevel }

/-- A news article as mapped by `getNewsAnalysis` (part_002 lines 263-269);
only `title` (possibly absent) and `url` are read by the sentiment code. -/
structure Article where
  title : Option String
  url : String
  deriving Repr, DecidableEq

/-- A scored headline pushed by `getSentimentFromNews` (part_002 lines 310-314). -/
structure Headline where
  title : String
  sentiment : Int
  url : String
  deriving Repr, DecidableEq

/-- The object returned by `getSentimentFromNews`.  The empty-news branch
(part_002 lines 283-286) returns no `headlines` field at all, hence `Option`. -/
structure SentResult where
  score : ℚ
  message : String
  headlines : Option (List Headline)
  deriving Repr, DecidableEq

/-- The fixed positive-word set (part_002 line 290). -/
def positiveWords : List String :=
  ["growth", "profit", "increase", "rise", "gain", "strong", "beat", "exceed", "positive", "up"]

/-- The fixed negative-word set (part_002 line 291). -/
def negativeWords : List String :=
  ["loss", "decline", "fall", "drop", "weak", "miss", "negative", "down", "concern", "risk"]

/-- Whether the character list `p` is an initial segment of `s`. -/
def startsWithChars : List Char → List Char → Bool
  | _, [] => true
  | [], _ :: _ => false
  | a :: s, b :: p => a == b && startsWithChars s p

/-- Whether `p` occurs as a contiguous sublist of `s`. -/
def hasSubChars : List Char → List Char → Bool
  | [], p => p.isEmpty
  | a :: s, p => startsWithChars (a :: s) p || hasSubChars s p

/-- JS `String.prototype.includes`: substring containment, not tokenized. -/
def jsIncludes (s pat : String) : Bool := hasSubChars s.toList pat.toList

/-- JS `toLowerCase`: lower-case every character.  (Same per-character map as
core `String.toLower`, stated on the underlying character list so that it
reduces in the kernel.) -/
def lowerString (s : String) : String := ⟨s.data.map Char.toLower⟩

/-- The per-headline score of `getSentimentFromNews` (part_002 lines 297-307):
lower-case the title, add 1 for each positive word it includes, subtract 1 for
each negative word it includes. -/
def headlineScore (title : String) : Int :=
  let t := lowerString title
  let afterPos := positiveWords.foldl (fun sc w => if jsIncludes t w then sc + 1 else sc) 0
  negativeWords.foldl (fun sc w => if jsIncludes t w then sc - 1 else sc) afterPos

/-- JS `Math.round`: round half toward positive infinity. -/
def jsRound (x : ℚ) : Int := Int.floor (x + 1/2)

/-- `Math.round(x * 100) / 100` (part_002 line 328). -/
def jsRound2 (x : ℚ) : ℚ := (jsRound (x * 100) : ℚ) / 100

/-- The average-score-to-label cascade of `getSentimentFromNews`
(part_002 lines 320-325). -/
def sentimentLabel (avg : ℚ) : String :=
  if avg > 0.5 then "Very Positive sentiment in recent news"
  else if avg > 0 then "Positive sentiment in recent news"
  else if avg == 0 then "Neutral sentiment in recent news"
  else if avg > -0.5 then "Negative sentiment in recent news"
  else "Very Negative sentiment in recent news"

/-- `getSentimentFromNews` (part_002 lines 281-332).  The guard
`!newsData.articles || newsData.articles.length === 0` is `articles.isEmpty`
(the producer always supplies a list).  The average divides the summed
headline scores by the number of articles (titled or not, line 318). -/
def getSentimentFromNews (articles : List Article) : SentResult :=
  if articles.isEmpty then
    { score := 0
      message := "No news articles available for sentiment analysis"
      headlines := none }
  else
    let acc := articles.foldl
      (fun (acc : Int × List Headline) a =>
        match a.title with
        | none => acc
        | some title =>
          (acc.1 + headlineScore title,
           acc.2 ++ [{ title := title, sentiment := headlineScore title, url := a.url }]))
      (0, [])
    let avgScore : ℚ := if articles.length > 0 then (acc.1 : ℚ) / (articles.length : ℚ) else 0
    { score := jsRound2 avgScore
      message := sentimentLabel avgScore
      headlines := some (acc.2.take 5) }

/-- The `'Time Series (Daily)'` object: an association of date keys to daily
closing prices.  Date keys are naturals; the source sorts the `YYYY-MM-DD`
date strings lexicographically, which on such fixed-width strings coincides
with numeric order.  The `'5. volume'` pass-through field is not modelled. -/
abbrev TimeSeries := List (Nat × ℚ)

/-- `Object.keys(timeSeries).sort().reverse()` (part_002 line 93): the date
keys in descending order. -/
def sortDesc (l : List Nat) : List Nat := l.insertionSort (· ≥ ·)

/-- `parseFloat(timeSeries[date]['4. close'])`: the close stored under a date
key.  Keys are always drawn from the object itself, so the lookup succeeds
wherever the source evaluates it. -/
def closeOf (ts : TimeSeries) (d : Nat) : ℚ := (ts.lookup d).getD 0

/-- The numeric core of the object returned by `getTechnicalAnalysis`
(part_002 lines 108-118), with the derived quantities kept exact (`toFixed(2)`
display formatting not modelled). -/
structure TechOut where
  price : ℚ
  change : ℚ
  changePercent : ℚ
  sma20 : ℚ
  trend : String
  deriving Repr, DecidableEq

/-- The data-dependent part of `getTechnicalAnalysis` (part_002 lines
93-118).  With fewer than two date keys the source dereferences an undefined
entry and throws, landing in the `catch` branch that returns the `'N/A'`
sentinel (lines 119-128) — the `none` case here. -/
def getTechnicalAnalysisCore (ts : TimeSeries) : Option TechOut :=
  match sortDesc (ts.map Prod.fst) with
  | latestDate :: previousDate :: restDates =>
    let dates := latestDate :: previousDate :: restDates
    let currentPrice := closeOf ts latestDate
    let previousPrice := closeOf ts previousDate
    let change := currentPrice - previousPrice
    let changePercent := change / previousPrice * 100
    let prices := (dates.take 20).map (closeOf ts)
    let sma20 := prices.foldl (· + ·) 0 / (prices.length : ℚ)
    some { price := currentPrice
           change := change
           changePercent := changePercent
           sma20 := sma20
           trend := if currentPrice > sma20 then "Bullish" else "Bearish" }
  | _ => none

/-- The outcome of one provider fetch as seen inside a signal-derivation
step: the awaited fetch rejects (network failure), the parsed body carries an
explicit error payload (`data['Error Message']` / `data.status === 'error'`),
or a payload arrives. -/
inductive FetchOutcome (α : Type) where
  | networkFailure
  | providerError (msg : String)
  | payload (data : α)
  deriving Repr, DecidableEq

/-- `getTechnicalAnalysis` (part_002 lines 66-129).  A missing
`ALPHA_VANTAGE_API_KEY` returns the sentinel directly (lines 70-78); a thrown
error — network failure, `Error Message` payload (line 85), or a missing
`'Time Series (Daily)'` field (`payload none`, line 90) — is caught and
converted into the sentinel (lines 119-128), which is `none` here. -/
def getTechnicalAnalysis (hasKey : Bool) (o : FetchOutcome (Option TimeSeries)) :
    Option TechOut :=
  if !hasKey then none
  else
    match o with
    | .networkFailure => none
    | .providerError _ => none
    | .payload none => none
    | .payload (some ts) => getTechnicalAnalysisCore ts

/-- `getFundamentalAnalysis` (part_002 lines 131-169): every failure mode is
converted locally into the all-`'N/A'` object; a payload passes the fields
through (each already defaulted to `'N/A'` by `|| 'N/A'`, lines 153-155). -/
def getFundamentalAnalysis (hasKey : Bool) (o : FetchOutcome FundData) : FundData :=
  if !hasKey then ⟨none, none⟩
  else
    match o with
    | .networkFailure => ⟨none, none⟩
    | .providerError _ => ⟨none, none⟩
    | .payload d => d

/-- `getNewsAnalysis` (part_002 lines 241-279): every failure mode is
converted locally into the empty article list. -/
def getNewsAnalysis (hasKey : Bool) (o : FetchOutcome (List Article)) : List Article :=
  if !hasKey then []
  else
    match o with
    | .networkFailure => []
    | .providerError _ => []
    | .payload arts => arts

/-- The fields of the technical object that `generateRecommendation` parses
(`price`, `changePercent`, `indicators.sma20`). -/
def toTechData : Option TechOut → Option TechData
  | none => none
  | some t => some ⟨t.price, t.changePercent, t.sma20⟩

/-- The analysis record assembled by `analyzeAsset` (part_002 lines 33-64);
the rendered `summary` string and timestamp are display-only and not
modelled. -/
structure Analysis where
  technical : Option TechOut
  fundamental : FundData
  sentiment : SentResult
  news : List Article
  recommendation : Recommendation
  deriving Repr, DecidableEq

/-- `analyzeAsset` (part_002 lines 33-64): the three fetches are independent;
their outcomes are explicit arguments.  The technical and fundamental steps
share the one Alpha Vantage key (`alphaKey`); the news step has its own key. -/
def analyzeAsset (alphaKey : Bool) (techOut : FetchOutcome (Option TimeSeries))
    (fundOut : FetchOutcome FundData) (newsKey : Bool)
    (newsOut : FetchOutcome (List Article)) : Analysis :=
  let technicalData := getTechnicalAnalysis alphaKey techOut
  let fundamentalData := getFundamentalAnalysis alphaKey fundOut
  let newsData := getNewsAnalysis newsKey newsOut
  { technical := technicalData
    fundamental := fundamentalData
    sentiment := getSentimentFromNews newsData
    news := newsData
    recommendation := generateRecommendation (toTechData technicalData) fundamentalData
      ⟨(getSentimentFromNews newsData).score⟩ }

/-- The possible responses of `handler` (part_002 lines 3-31): the OPTIONS
preflight 200, the 405 for non-POST methods, the 400 `'Symbol is required'`,
and the 200 carrying the analysis.  (The 500 branch exists in the source but
`analyzeAsset` and everything under it is total here, mirroring that each
signal step catches its own errors.) -/
inductive HandlerResult where
  | corsOk
  | methodNotAllowed
  | badRequest
  | ok (analysis : Analysis)
  deriving Repr, DecidableEq

/-- `handler` (part_002 lines 3-31).  `!symbol` is true for an absent request
field and for the empty string (both JS-falsy); the `toUpperCase()` call on
the symbol only affects display and is not modelled. -/
def handler (method : String) (symbol : Option String) (alphaKey : Bool)
    (techOut : FetchOutcome (Option TimeSeries)) (fundOut : FetchOutcome FundData)
    (newsKey : Bool) (newsOut : FetchOutcome (List Article)) : HandlerResult :=
  if method == "OPTIONS" then .corsOk
  else if method != "POST" then .methodNotAllowed
  else
    match symbol with
    | none => .badRequest
    | some s =>
      if s == "" then .badRequest
      else .ok (analyzeAsset alphaKey techOut fundOut newsKey newsOut)

/-- JS truthiness of the `symbol` argument. -/
def symbolPresent : Option String → Bool
  | none => false
  | some s => !(s == "")

def HandlerResult.isOk : HandlerResult → Bool
  | .ok _ => true
  | _ => false

/-- The provider response seen by the `GLOBAL_QUOTE` variant of
`getTechnicalAnalysis` (part_000 lines 431-501): the fetch rejects, the
response is not ok (line 441), the body carries a rate-limit `Information`
notice (line 448), or a parsed body whose `'Global Quote'` field is the given
key-value object (a missing field and an empty object are both the empty
list, as lines 460-463 treat them identically). -/
inductive GQResponse where
  | fetchFailed
  | notOk (status : Nat)
  | rateLimited
  | body (quote : List (String × String))
  deriving Repr, DecidableEq

/-- The string-field object returned by the `GLOBAL_QUOTE` variant.  The
`catch` sentinel (part_000 lines 493-499) carries no `changePercent` field and
an empty `indicators` object, hence the `Option` fields. -/
structure TechSignalStr where
  price : String
  change : String
  changePercent : Option String
  volume : String
  sma20 : Option String
  trend : Option String
  message : String
  deriving Repr, DecidableEq

/-- The fixed demo-data object of the rate-limit branch (part_000 lines 450-457). -/
def demoQuote : TechSignalStr :=
  { price := "232.14"
    change := "-0.42"
    changePercent := some "-0.18"
    volume := "39418437"
    sma20 := some "225.76"
    trend := some "Bullish"
    message := "Demo data - API rate limit reached" }

/-- The `catch` sentinel of the `GLOBAL_QUOTE` variant (part_000 lines 493-499). -/
def gqSentinel (msg : String) : TechSignalStr :=
  { price := "N/A"
    change := "N/A"
    changePercent := none
    volume := "N/A"
    sma20 := none
    trend := none
    message := "Unable to fetch technical data: " ++ msg }

/-- The `GLOBAL_QUOTE` variant of `getTechnicalAnalysis` (part_000 lines
431-501), its `try` block modelled as `Except`.  After the non-empty-quote
check (line 461) the success path reads `timeSeries` (line 465), a variable
bound nowhere in this function — the earlier `const timeSeries` at part_000
line 155 is local to a different function — so evaluation throws a
`ReferenceError` that the `catch` turns into the sentinel. -/
def getTechnicalAnalysisGQ (hasKey : Bool) (resp : GQResponse) : TechSignalStr :=
  let tryResult : Except String TechSignalStr :=
    if !hasKey then .error "Alpha Vantage API key not configured"
    else
      match resp with
      | .fetchFailed => .error "fetch failed"
      | .notOk status => .error ("Alpha Vantage API error: " ++ toString status)
      | .rateLimited => .ok demoQuote
      | .body quote =>
        if quote.isEmpty then .error "No quote data available"
        else .error "timeSeries is not defined"
  match tryResult with
  | .ok v => v
  | .error e => gqSentinel e

/-- The score-to-action mapping exactly as the claim words it, with explicit
half-open bands: `≥ 3` Strong Buy/High, `[1, 3)` Buy/Medium, `[-1, 1)`
Hold/Medium, `[-3, -1)` Sell/Medium, `< -3` Strong Sell/High. -/
def claimedActionMap (score : Int) : String × String :=
  if 3 ≤ score then ("🟢 Strong Buy", "High")
  else if 1 ≤ score ∧ score < 3 then ("🟢 Buy", "Medium")
  else if -1 ≤ score ∧ score < 1 then ("🟡 Hold", "Medium")
  else if -3 ≤ score ∧ score < -1 then ("🔴 Sell", "Medium")
  else ("🔴 Strong Sell", "High")

theorem actionOf_eq_claimedActionMap (n : Int) :
    ((actionOf n).2.1, (actionOf n).2.2) = claimedActionMap n := by
  unfold actionOf claimedActionMap
  split_ifs <;> first | rfl | omega

/-- C1: every recommendation's action/confidence pair is exactly the claimed
threshold mapping of its total score, and the boundary scores 3, 1, -1, -3
land on Strong Buy, Buy, Hold, Sell respectively. -/
theorem score_action_mapping :
    (∀ (t : Option TechData) (f : FundData) (s : SentData),
      ((generateRecommendation t f s).action, (generateRecommendation t f s).confidence)
        = claimedActionMap (generateRecommendation t f s).score)
    ∧ claimedActionMap 3 = ("🟢 Strong Buy", "High")
    ∧ claimedActionMap 1 = ("🟢 Buy", "Medium")
    ∧ claimedActionMap (-1) = ("🟡 Hold", "Medium")
    ∧ claimedActionMap (-3) = ("🔴 Sell", "Medium") := by
  refine ⟨fun t f s => ?_, by decide, by decide, by decide, by decide⟩
  exact actionOf_eq_claimedActionMap _

/-- C3: the worked example.  `technical = {price: 105, changePercent: 4,
sma20: 100}`, `fundamental = {peRatio: 12}` with no dividend yield,
`sentiment = {score: 0.6}` scores 2 + 1 + 2 + 1 = 6: Strong Buy, High
confidence, no risk factors, risk level Low. -/
theorem strong_buy_example :
    generateRecommendation (some ⟨105, 4, 100⟩) ⟨some 12, none⟩ ⟨0.6⟩ =
      { recommendation := "BUY"
        action := "🟢 Strong Buy"
        confidence := "High"
        score := 6
        riskLevel := "Low"
        reasons := ["Strong upward momentum (+3%)", "Price above 20-day average",
          "Attractive P/E ratio (value play)", "Positive market sentiment"]
        riskFactors := []
        message := "High confidence buy recommendation. Low risk investment with good upside potential." } := by
  norm_num [generateRecommendation, techScore, peScore, divScore, sentScore,
    actionOf, assessRisk, generateRecommendationMessage]
  rfl

/-- C2: a missing signal (the `'N/A'` sentinel, i.e. `none` for the technical
input, all-`none` fields for the fundamental input, and the zero-score object
`getSentimentFromNews` returns without news for the sentiment input) makes its
scoring branches contribute nothing — the guards skip them — and the total
score and risk factors are exactly those of the remaining signals; the
sentinels' own contributions are zero/empty.  `generateRecommendation` is a
total function, so every such run yields a complete `Recommendation`. -/
theorem missing_signal_skipped :
    (∀ (f : FundData) (s : SentData),
      (generateRecommendation none f s).score
          = (peScore f.peRatio).1 + (divScore f.dividendYield).1 + (sentScore s).1
        ∧ (generateRecommendation none f s).riskFactors
          = ((peScore f.peRatio).2.2 ++ (sentScore s).2.2).take 3)
    ∧ (∀ (t : Option TechData) (s : SentData),
      (generateRecommendation t ⟨none, none⟩ s).score = (techScore t).1 + (sentScore s).1
        ∧ (generateRecommendation t ⟨none, none⟩ s).riskFactors
          = ((techScore t).2.2 ++ (sentScore s).2.2).take 3)
    ∧ (∀ (t : Option TechData) (f : FundData),
      (generateRecommendation t f ⟨0⟩).score
          = (techScore t).1 + (peScore f.peRatio).1 + (divScore f.dividendYield).1
        ∧ (generateRecommendation t f ⟨0⟩).riskFactors
          = ((techScore t).2.2 ++ (peScore f.peRatio).2.2).take 3)
    ∧ techScore none = (0, [], []) ∧ peScore none = (0, [], [])
    ∧ divScore none = (0, []) ∧ sentScore ⟨0⟩ = (0, [], []) := by
  have hsent : sentScore ⟨0⟩ = (0, [], []) := by
    unfold sentScore
    norm_num
  refine ⟨fun f s => ⟨?_, ?_⟩, fun t s => ⟨?_, ?_⟩, fun t f => ⟨?_, ?_⟩,
    rfl, rfl, rfl, hsent⟩ <;>
    simp [generateRecommendation, techScore, peScore, divScore, hsent]

theorem assessRisk_eq (n : Nat) :
    assessRisk n = if n = 0 then "Low" else if n ≤ 2 then "Medium" else "High" := by
  unfold assessRisk
  split_ifs <;> first | rfl | omega

/-- C4: the returned risk level is a pure function of the number of
accumulated risk-factor strings before truncation — 0 gives Low, 1 or 2 give
Medium, 3 or more give High — for every combination of inputs. -/
theorem riskLevel_pure_function_of_count :
    ∀ (t : Option TechData) (f : FundData) (s : SentData),
      (generateRecommendation t f s).riskLevel =
        (if ((techScore t).2.2 ++ (peScore f.peRatio).2.2 ++ (sentScore s).2.2).length = 0
         then "Low"
         else if ((techScore t).2.2 ++ (peScore f.peRatio).2.2 ++ (sentScore s).2.2).length ≤ 2
         then "Medium" else "High") := by
  intro t f s
  show assessRisk _ = _
  rw [assessRisk_eq]

theorem foldl_incr (p : String → Bool) (l : List String) (init : Int) :
    l.foldl (fun sc w => if p w then sc + 1 else sc) init = init + (l.countP p : Int) := by
  induction l generalizing init with
  | nil => simp
  | cons a l ih =>
    rw [List.foldl_cons, ih, List.countP_cons]
    by_cases h : p a <;> simp [h] <;> omega

theorem foldl_decr (p : String → Bool) (l : List String) (init : Int) :
    l.foldl (fun sc w => if p w then sc - 1 else sc) init = init - (l.countP p : Int) := by
  induction l generalizing init with
  | nil => simp
  | cons a l ih =>
    rw [List.foldl_cons, ih, List.countP_cons]
    by_cases h : p a <;> simp [h] <;> omega

/-- C6: the per-headline sentiment score is the number of positive-set terms
occurring (as lower-cased substrings, matched independently) minus the number
of negative-set terms occurring, and in particular "growth concern" scores 0. -/
theorem headlineScore_counts_keywords :
    (∀ title : String,
      headlineScore title
        = (positiveWords.countP (fun w => jsIncludes (lowerString title) w) : Int)
          - (negativeWords.countP (fun w => jsIncludes (lowerString title) w) : Int))
    ∧ headlineScore "growth concern" = 0 := by
  constructor
  · intro title
    simp only [headlineScore]
    rw [foldl_incr, foldl_decr]
    ring
  · decide

/-- C5 counterexample: for zero articles the sentiment derivation does return
score 0, but its message is not "Neutral sentiment in recent news", so the
claim as stated is false. -/
theorem empty_news_label_counterexample :
    ¬((getSentimentFromNews []).score = 0
      ∧ (getSentimentFromNews []).message = "Neutral sentiment in recent news") := by
  decide

/-- C5 amended: for zero articles the sentiment derivation returns score
exactly 0 with the message "No news articles available for sentiment
analysis" (and no headlines field). -/
theorem empty_news_sentiment :
    getSentimentFromNews [] =
      { score := 0
        message := "No news articles available for sentiment analysis"
        headlines := none } := by
  decide

theorem foldl_add_eq_sum (l : List ℚ) (init : ℚ) : l.foldl (· + ·) init = init + l.sum := by
  induction l generalizing init with
  | nil => simp
  | cons a l ih =>
    rw [List.foldl_cons, ih, List.sum_cons]
    ring

theorem getTechnicalAnalysisCore_eq (ts : TimeSeries) (latestDate previousDate : Nat)
    (restDates : List Nat)
    (h : sortDesc (ts.map Prod.fst) = latestDate :: previousDate :: restDates) :
    getTechnicalAnalysisCore ts =
      some { price := closeOf ts latestDate
             change := closeOf ts latestDate - closeOf ts previousDate
             changePercent :=
               (closeOf ts latestDate - closeOf ts previousDate) / closeOf ts previousDate * 100
             sma20 :=
               (((latestDate :: previousDate :: restDates).take 20).map (closeOf ts)).foldl (· + ·) 0
                 / ((((latestDate :: previousDate :: restDates).take 20).map (closeOf ts)).length : ℚ)
             trend :=
               if closeOf ts latestDate >
                   (((latestDate :: previousDate :: restDates).take 20).map (closeOf ts)).foldl (· + ·) 0
                     / ((((latestDate :: previousDate :: restDates).take 20).map (closeOf ts)).length : ℚ)
               then "Bullish" else "Bearish" } := by
  unfold getTechnicalAnalysisCore
  rw [h]

theorem sortDesc_length (l : List Nat) : (sortDesc l).length = l.length :=
  (List.perm_insertionSort _ l).length_eq

/-- C7: whenever the series yields at least two sorted date keys, the derived
change is exactly the latest close minus the previous close, and the derived
changePercent is exactly 100 times the change divided by the previous close,
latest and previous being the two most recent dates after sorting descending. -/
theorem change_and_changePercent_exact (ts : TimeSeries) (latestDate previousDate : Nat)
    (restDates : List Nat)
    (h : sortDesc (ts.map Prod.fst) = latestDate :: previousDate :: restDates) :
    ∃ out, getTechnicalAnalysisCore ts = some out
      ∧ out.change = closeOf ts latestDate - closeOf ts previousDate
      ∧ out.changePercent = 100 * out.change / closeOf ts previousDate := by
  refine ⟨_, getTechnicalAnalysisCore_eq ts latestDate previousDate restDates h, rfl, ?_⟩
  show (closeOf ts latestDate - closeOf ts previousDate) / closeOf ts previousDate * 100 = _
  ring

theorem change_and_changePercent_exact_witness :
    ∃ out, getTechnicalAnalysisCore [(2, 105), (1, 100)] = some out
      ∧ out.change = closeOf [(2, 105), (1, 100)] 2 - closeOf [(2, 105), (1, 100)] 1
      ∧ out.changePercent = 100 * out.change / closeOf [(2, 105), (1, 100)] 1 :=
  change_and_changePercent_exact [(2, 105), (1, 100)] 2 1 [] (by decide)

/-- C8: whenever the series yields at least two sorted date keys, the derived
SMA20 is the arithmetic mean of the `min 20 (number of closes)` most recent
closes — the sum of the first `min 20 n` closes in descending date order
divided by that count, with no error when fewer than 20 closes exist. -/
theorem sma20_is_mean_of_min20 (ts : TimeSeries) (latestDate previousDate : Nat)
    (restDates : List Nat)
    (h : sortDesc (ts.map Prod.fst) = latestDate :: previousDate :: restDates) :
    ∃ out, getTechnicalAnalysisCore ts = some out
      ∧ out.sma20 = (((sortDesc (ts.map Prod.fst)).take 20).map (closeOf ts)).sum
          / ((min 20 ts.length : Nat) : ℚ)
      ∧ (((sortDesc (ts.map Prod.fst)).take 20).map (closeOf ts)).length = min 20 ts.length := by
  have hlen : (((sortDesc (ts.map Prod.fst)).take 20).map (closeOf ts)).length
      = min 20 ts.length := by
    rw [List.length_map, List.length_take, sortDesc_length, List.length_map]
  refine ⟨_, getTechnicalAnalysisCore_eq ts latestDate previousDate restDates h, ?_, hlen⟩
  show (((latestDate :: previousDate :: restDates).take 20).map (closeOf ts)).foldl (· + ·) 0
      / ((((latestDate :: previousDate :: restDates).take 20).map (closeOf ts)).length : ℚ) = _
  rw [← h, hlen, foldl_add_eq_sum, zero_add]

theorem sma20_is_mean_of_min20_witness :
    ∃ out, getTechnicalAnalysisCore [(2, 105), (1, 100)] = some out
      ∧ out.sma20 = (((sortDesc (([(2, 105), (1, 100)] : TimeSeries).map Prod.fst)).take 20).map
            (closeOf [(2, 105), (1, 100)])).sum
          / ((min 20 ([(2, 105), (1, 100)] : TimeSeries).length : Nat) : ℚ)
      ∧ (((sortDesc (([(2, 105), (1, 100)] : TimeSeries).map Prod.fst)).take 20).map
            (closeOf [(2, 105), (1, 100)])).length
          = min 20 ([(2, 105), (1, 100)] : TimeSeries).length :=
  sma20_is_mean_of_min20 [(2, 105), (1, 100)] 2 1 [] (by decide)

/-- C9: every failure inside a signal-derivation step — missing provider
credential, network failure, explicit provider error payload, missing or
insufficient data series — is converted locally into that signal's
`'N/A'`/empty sentinel (never propagated: each derivation and `analyzeAsset`
are total), and the handler answers a POST with the analysis exactly when the
symbol argument is present and non-empty. -/
theorem errors_convert_to_sentinels :
    (∀ o : FetchOutcome (Option TimeSeries), getTechnicalAnalysis false o = none)
    ∧ getTechnicalAnalysis true .networkFailure = none
    ∧ (∀ m, getTechnicalAnalysis true (.providerError m) = none)
    ∧ getTechnicalAnalysis true (.payload none) = none
    ∧ (∀ ts : TimeSeries, ts.length < 2 →
        getTechnicalAnalysis true (.payload (some ts)) = none)
    ∧ (∀ o : FetchOutcome FundData, getFundamentalAnalysis false o = ⟨none, none⟩)
    ∧ getFundamentalAnalysis true .networkFailure = ⟨none, none⟩
    ∧ (∀ m, getFundamentalAnalysis true (.providerError m) = ⟨none, none⟩)
    ∧ (∀ o : FetchOutcome (List Article), getNewsAnalysis false o = [])
    ∧ getNewsAnalysis true .networkFailure = []
    ∧ (∀ m, getNewsAnalysis true (.providerError m) = [])
    ∧ (∀ (symbol : Option String) (alphaKey : Bool)
        (techOut : FetchOutcome (Option TimeSeries)) (fundOut : FetchOutcome FundData)
        (newsKey : Bool) (newsOut : FetchOutcome (List Article)),
        (handler "POST" symbol alphaKey techOut fundOut newsKey newsOut).isOk
          = symbolPresent symbol) := by
  refine ⟨fun o => rfl, rfl, fun m => rfl, rfl, ?_, fun o => rfl, rfl, fun m => rfl,
    fun o => rfl, rfl, fun m => rfl, ?_⟩
  · intro ts hts
    show getTechnicalAnalysisCore ts = none
    have hl : (sortDesc (ts.map Prod.fst)).length < 2 := by
      rw [sortDesc_length, List.length_map]
      exact hts
    unfold getTechnicalAnalysisCore
    rcases hsort : sortDesc (ts.map Prod.fst) with _ | ⟨a, _ | ⟨b, rest⟩⟩
    · rfl
    · rfl
    · rw [hsort] at hl
      simp only [List.length_cons] at hl
      omega
  · intro symbol alphaKey techOut fundOut newsKey newsOut
    cases symbol with
    | none => rfl
    | some s =>
      by_cases h : s == ""
      · simp [handler, symbolPresent, HandlerResult.isOk, h]
      · simp [handler, symbolPresent, HandlerResult.isOk, h]

theorem errors_convert_to_sentinels_witness :
    getTechnicalAnalysis true (FetchOutcome.payload (some [(1, 100)])) = none :=
  errors_convert_to_sentinels.2.2.2.2.1 [(1, 100)] (by decide)

/-- C10: in the `GLOBAL_QUOTE` variant, every successful non-rate-limit
provider response ends in the `'N/A'` sentinel (the success path dereferences
the undefined `timeSeries`), and every run whatsoever returns either the fixed
demo-data object or a sentinel with price `'N/A'` — never a technical signal
computed from the fetched quote. -/
theorem global_quote_variant_never_computes_signal :
    (∀ quote : List (String × String), quote ≠ [] →
      getTechnicalAnalysisGQ true (.body quote)
        = gqSentinel "timeSeries is not defined")
    ∧ (∀ (hasKey : Bool) (resp : GQResponse),
        getTechnicalAnalysisGQ hasKey resp = demoQuote
          ∨ (getTechnicalAnalysisGQ hasKey resp).price = "N/A") := by
  constructor
  · intro quote hq
    simp [getTechnicalAnalysisGQ, List.isEmpty_iff, hq]
  · intro hasKey resp
    cases hasKey with
    | false => exact Or.inr rfl
    | true =>
      cases resp with
      | fetchFailed => exact Or.inr rfl
      | notOk status => exact Or.inr rfl
      | rateLimited => exact Or.inl rfl
      | body quote =>
        refine Or.inr ?_
        by_cases h : quote.isEmpty
        · simp [getTechnicalAnalysisGQ, h, gqSentinel]
        · simp [getTechnicalAnalysisGQ, h, gqSentinel]

theorem global_quote_variant_witness :
    getTechnicalAnalysisGQ true (GQResponse.body [("05. price", "232.14")])
      = gqSentinel "timeSeries is not defined" :=
  global_quote_variant_never_computes_signal.1 [("05. price", "232.14")] (by decide)

end FinChat
